import Mathlib

/-!
Shallow embedding of the recipe-api CRUD service (Django/DRF application):
user store with email-identified accounts, owner-scoped Tag / Ingredient /
Recipe entities, token authentication, and the serializer layer declared in
src/app/user/serializers.py and src/app/recipe/serializers.py.

The repository ships only its serializers and its test suite; the model and
view modules (core/models.py, recipe/views.py, user/views.py) are declared
by imports and exercised by the tests but are not part of the source tree.
Definitions for those parts are marked "Modelled from the spec:" and follow
the specification's description of the missing module, pinned by the
behaviour the in-tree tests assert.
-/

namespace RecipeApi

/-- User row of the user store: email identity, stored password hash and the
three boolean flags (spec section 3). -/
structure User where
  id : Nat
  email : String
  password : String
  is_active : Bool
  is_staff : Bool
  is_superuser : Bool
deriving DecidableEq, Repr

/-- Tag row: id, name and owning user reference (core.models.Tag, declared by
src/app/recipe/serializers.py and the tests). -/
structure Tag where
  id : Nat
  name : String
  user : Nat
deriving DecidableEq, Repr

/-- Ingredient row: same shape as Tag. -/
structure Ingredient where
  id : Nat
  name : String
  user : Nat
deriving DecidableEq, Repr

/-- Recipe row with its many-to-many relation sets stored as id lists, the
wire representation used by RecipeSerializer (PrimaryKeyRelatedField many).
The decimal price field is modelled as an integer scalar; its representation
is not load-bearing for any claim. -/
structure Recipe where
  id : Nat
  user : Nat
  title : String
  time_minutes : Nat
  price : Int
  link : String
  image : Option String
  tags : List Nat
  ingredients : List Nat
deriving DecidableEq, Repr

/-- The persistent store: one table per entity plus the autoincrement counter
for user primary keys. -/
structure DB where
  users : List User
  tags : List Tag
  ingredients : List Ingredient
  recipes : List Recipe
  nextUserId : Nat
deriving DecidableEq, Repr

/-- Descending-name order on tags (Django order_by with a minus-name key). -/
def tagNameGe (a b : Tag) : Prop := b.name ≤ a.name

instance : DecidableRel tagNameGe := fun a b =>
  inferInstanceAs (Decidable (b.name ≤ a.name))

instance : IsTotal Tag tagNameGe := ⟨fun a b => le_total b.name a.name⟩

instance : IsTrans Tag tagNameGe := ⟨fun _ _ _ hab hbc => le_trans hbc hab⟩

/-- Descending-name order on ingredients. -/
def ingNameGe (a b : Ingredient) : Prop := b.name ≤ a.name

instance : DecidableRel ingNameGe := fun a b =>
  inferInstanceAs (Decidable (b.name ≤ a.name))

instance : IsTotal Ingredient ingNameGe := ⟨fun a b => le_total b.name a.name⟩

instance : IsTrans Ingredient ingNameGe := ⟨fun _ _ _ hab hbc => le_trans hbc hab⟩

/-- Descending-id order on recipes (Django order_by with a minus-id key, as
asserted by test_retrieve_recipes). -/
def recipeIdGe (a b : Recipe) : Prop := b.id ≤ a.id

instance : DecidableRel recipeIdGe := fun a b =>
  inferInstanceAs (Decidable (b.id ≤ a.id))

instance : IsTotal Recipe recipeIdGe := ⟨fun a b => Nat.le_total b.id a.id⟩

instance : IsTrans Recipe recipeIdGe := ⟨fun _ _ _ hab hbc => Nat.le_trans hbc hab⟩

/-- Modelled from the spec: recipe/views.py (TagViewSet get_queryset) is not
under src/. The spec says the tag list returns only rows owned by the
requesting user, ordered by name descending, and with assigned_only set
returns only tags referenced by at least one of the user's recipes; the
in-tree tests (test_retrieve_tags, test_tags_limited_to_user,
test_retrieve_tags_assigned_to_recipes) pin this behaviour. -/
def list_tags (db : DB) (u : Nat) (assigned_only : Bool) : List Tag :=
  let owned := db.tags.filter (fun t => t.user == u)
  let base :=
    if assigned_only then
      owned.filter (fun t => db.recipes.any (fun r => r.user == u && r.tags.contains t.id))
    else owned
  List.insertionSort tagNameGe base

/-- Modelled from the spec: recipe/views.py (IngredientViewSet get_queryset)
is not under src/; same shape as the tag list. -/
def list_ingredients (db : DB) (u : Nat) (assigned_only : Bool) : List Ingredient :=
  let owned := db.ingredients.filter (fun i => i.user == u)
  let base :=
    if assigned_only then
      owned.filter (fun i => db.recipes.any (fun r => r.user == u && r.ingredients.contains i.id))
    else owned
  List.insertionSort ingNameGe base

/-- Modelled from the spec: recipe/views.py (RecipeViewSet get_queryset) is
not under src/. The recipe list filters to the requesting user's own rows,
ordered by id descending; the optional tag and ingredient id-list filters
keep a recipe when it carries at least one listed id, and are combined by
logical AND when both are given (the spec notes this combination as a
modelling decision). -/
def list_recipes (db : DB) (u : Nat)
    (tagFilter ingFilter : Option (List Nat)) : List Recipe :=
  let owned := db.recipes.filter (fun r => r.user == u)
  let afterTags :=
    match tagFilter with
    | none => owned
    | some ids => owned.filter (fun r => r.tags.any (fun t => ids.contains t))
  let afterIngs :=
    match ingFilter with
    | none => afterTags
    | some ids => afterTags.filter (fun r => r.ingredients.any (fun i => ids.contains i))
  List.insertionSort recipeIdGe afterIngs

/-- Modelled from the spec: the recipe detail view resolves an id inside the
user-filtered queryset, so another user's row is indistinguishable from a
missing one (404, modelled as none). -/
def retrieve_recipe (db : DB) (u : Nat) (rid : Nat) : Option Recipe :=
  (db.recipes.filter (fun r => r.user == u)).find? (fun r => r.id == rid)

/-- Error classes the user store can raise. ValueError is Python's built-in
error (what UserManager raises, per test_user_no_email_raises_error);
ValidationError is the serializer-layer error that surfaces as a 400. -/
inductive PyErr where
  | valueError
  | validationError
deriving DecidableEq, Repr

/-- Modelled from the spec: password hashing is delegated wholesale to the
framework (spec section 1 excludes it); it is modelled as an injective tagged
encoding of the raw password so that hash verification is expressible. -/
def hash_password (p : String) : String := "pbkdf2_sha256$" ++ p

/-- Django check_password as observed through the tests: the stored hash
verifies exactly the raw password it was derived from. -/
def check_password (raw : String) (u : User) : Bool :=
  u.password == hash_password raw

/-- Helper for email normalization: split a character list at its first
at-sign, returning the local part and the remainder, or none when the list
holds no at-sign. -/
def splitAtSign : List Char → Option (List Char × List Char)
  | [] => none
  | c :: cs =>
    if c = '@' then some ([], cs)
    else
      match splitAtSign cs with
      | some (l, d) => some (c :: l, d)
      | none => none

/-- Modelled from the spec: core/models.py (UserManager calling the
framework's normalize_email) is not under src/. The spec says normalization
lowercases only the domain part and preserves the local part, and
test_user_email_normalized pins the formula: local part joined by an at-sign
to the lowercased domain part. An email without an at-sign is untouched. -/
def normalize_email (e : String) : String :=
  match splitAtSign e.data with
  | some (l, d) => String.mk (l ++ '@' :: d.map Char.toLower)
  | none => e

/-- Modelled from the spec: core/models.py (UserManager create_user) is not
under src/. The spec says creation fails when the email is empty or missing,
normalizes the email, hashes the password, and stores the new user; the
error class raised on a missing email is pinned by the in-tree test
test_user_no_email_raises_error, which asserts ValueError. An error means
nothing is stored: no user/state pair is produced. -/
def create_user (db : DB) (email : Option String) (password : String) :
    Except PyErr (User × DB) :=
  match email with
  | none => .error .valueError
  | some e =>
    if e = "" then .error .valueError
    else
      let u : User :=
        { id := db.nextUserId
          email := normalize_email e
          password := hash_password password
          is_active := true
          is_staff := false
          is_superuser := false }
      .ok (u, { db with users := db.users ++ [u], nextUserId := db.nextUserId + 1 })

/-- Serialized representation of a user, from src/app/user/serializers.py:
UserSerializer exposes the fields email and password, with password declared
write_only, so the output representation holds only the email. -/
def user_to_representation (u : User) : List (String × String) :=
  [("email", u.email)]

/-- Modelled from the spec: user/views.py (CreateUserView driving
UserSerializer) is not under src/. The serializer declared in
src/app/user/serializers.py validates the password with min_length 5 and the
model-backed email field as required and unique before its create method
calls create_user; a validation failure is a 400 that leaves the store
untouched and carries a field-keyed error message (spec section 7:
"structured 400 responses with field-level messages"), success is a 201
carrying the serialized user. -/
def signup (db : DB) (email password : String) :
    Nat × DB × List (String × String) :=
  if password.length < 5 then
    (400, db, [("password", "Ensure this field has at least 5 characters.")])
  else if email = "" then
    (400, db, [("email", "This field may not be blank.")])
  else if db.users.any (fun u => u.email == email) then
    (400, db, [("email", "user with this email already exists.")])
  else
    match create_user db (some email) password with
    | .ok (u, db') => (201, db', user_to_representation u)
    | .error _ => (400, db, [("email", "This field may not be blank.")])

/-- Modelled from the spec: the profile endpoint (user/views.py
ManageUserView) is not under src/; retrieve_self serializes the
authenticated user with UserSerializer, and test_retrieve_user_authenticated
pins the body to exactly the email field. -/
def me_retrieve (u : User) : Nat × List (String × String) :=
  (200, user_to_representation u)

/-- Modelled from the spec: authentication is the framework's email-keyed
credential check ("returns the user only if password hash matches"). It
looks the email up in the user store and verifies the raw password against
the stored hash. -/
def authenticate (db : DB) (email password : String) : Option User :=
  match db.users.find? (fun u => u.email == email) with
  | some u => if check_password password u then some u else none
  | none => none

/-- Modelled from the spec: token generation is an external framework
facility issuing an opaque per-user string. -/
def issue_token (u : User) : String := "token.user." ++ toString u.id

/-- Token endpoint built on AuthTokenSerializer
(src/app/user/serializers.py): both fields are required non-blank
CharFields, validate calls authenticate and raises a ValidationError (400)
when it returns no user; on success the view mints the user's token. A
missing or blank field never reaches authenticate. -/
def token_endpoint (db : DB) (email password : Option String) :
    Nat × List (String × String) :=
  match email, password with
  | some e, some p =>
    if e = "" || p = "" then (400, [])
    else
      match authenticate db e p with
      | some u => (200, [("token", issue_token u)])
      | none => (400, [])
  | _, _ => (400, [])

/-- Update payload as RecipeSerializer receives it: each field either absent
from the request body (none) or present with a value. The tag and ingredient
relation sets arrive as id lists (PrimaryKeyRelatedField many). -/
structure RecipePayload where
  title : Option String
  time_minutes : Option Nat
  price : Option Int
  link : Option String
  tags : Option (List Nat)
  ingredients : Option (List Nat)
deriving DecidableEq, Repr

/-- Modelled from the spec: recipe/views.py (RecipeViewSet update without
the partial flag) is not under src/. A full update requires the scalar
fields title, time_minutes and price; every absent optional field is reset
to its default, so a relation set absent from the payload is cleared to
empty (test_update_full_recipe pins this). Owner, id and image are untouched
by this endpoint. -/
def put_update (r : Recipe) (p : RecipePayload) : Except PyErr Recipe :=
  match p.title, p.time_minutes, p.price with
  | some t, some m, some pr =>
    .ok
      { id := r.id
        user := r.user
        title := t
        time_minutes := m
        price := pr
        link := p.link.getD ""
        image := r.image
        tags := p.tags.getD []
        ingredients := p.ingredients.getD [] }
  | _, _, _ => .error .validationError

/-- Modelled from the spec: recipe/views.py (RecipeViewSet update with the
partial flag) is not under src/. An update with the partial flag touches
only the provided fields, replacing a provided relation set wholesale and
leaving every absent field, relation sets included, unchanged
(test_update_partial_recipe pins this). -/
def patch_update (r : Recipe) (p : RecipePayload) : Recipe :=
  { id := r.id
    user := r.user
    title := p.title.getD r.title
    time_minutes := p.time_minutes.getD r.time_minutes
    price := p.price.getD r.price
    link := p.link.getD r.link
    image := r.image
    tags := p.tags.getD r.tags
    ingredients := p.ingredients.getD r.ingredients }

/-- JPEG signature check: the payload opens with the two SOI marker bytes. -/
def is_jpeg (bs : List Nat) : Bool :=
  match bs with
  | a :: b :: _ => a == 255 && b == 216
  | _ => false

/-- PNG signature check: the payload opens with the four PNG magic bytes. -/
def is_png (bs : List Nat) : Bool :=
  match bs with
  | a :: b :: c :: d :: _ => a == 137 && b == 80 && c == 78 && d == 71
  | _ => false

/-- Modelled from the spec: image decoding is the framework's concern (spec
section 6 admits JPEG/PNG-decodable binaries); decodability is modelled as
the JPEG-or-PNG signature check on the payload bytes. -/
def decodable_image (bs : List Nat) : Bool :=
  is_jpeg bs || is_png bs

/-- Modelled from the spec: the stored image location; the real path is
framework-generated, modelled as a recipe-determined string. -/
def image_path (rid : Nat) : String :=
  "uploads/recipe/" ++ toString rid ++ ".jpg"

/-- Modelled from the spec: recipe/views.py (the upload-image action) is not
under src/. The recipe id is resolved inside the user-filtered queryset; a
payload that does not decode as an image is a 400 that persists nothing,
while a decodable payload stores the binary, records its location on the
recipe row, and answers 200 with the location. -/
def upload_image (db : DB) (u : Nat) (rid : Nat) (bs : List Nat) :
    Nat × DB × List (String × String) :=
  match (db.recipes.filter (fun r => r.user == u)).find? (fun r => r.id == rid) with
  | none => (404, db, [])
  | some _ =>
    if decodable_image bs then
      (200,
       { db with
          recipes := db.recipes.map (fun r =>
            if r.id == rid && r.user == u then { r with image := some (image_path rid) } else r) },
       [("image", image_path rid)])
    else (400, db, [])

/-- Sample user mirroring the fixture the tests create. -/
def sampleUser : User :=
  { id := 1
    email := "test@recipeapi.com"
    password := hash_password "somethingrandom"
    is_active := true
    is_staff := false
    is_superuser := false }

/-- Second sample user, owner of rows the first must never see. -/
def otherUser : User :=
  { id := 2
    email := "test2@recipeapi.com"
    password := hash_password "somethingrandom2"
    is_active := true
    is_staff := false
    is_superuser := false }

/-- Empty store. -/
def emptyDB : DB :=
  { users := [], tags := [], ingredients := [], recipes := [], nextUserId := 1 }

/-- Sample recipe owned by the first sample user, carrying tag 1. -/
def sampleRecipe : Recipe :=
  { id := 1
    user := 1
    title := "Sample recipe"
    time_minutes := 10
    price := 2
    link := ""
    image := none
    tags := [1]
    ingredients := [1] }

/-- Sample store mirroring the test fixtures: two users, two tags, two
ingredients and one recipe of the first user referencing tag 1 and
ingredient 1. -/
def sampleDB : DB :=
  { users := [sampleUser, otherUser]
    tags := [⟨1, "Fish", 1⟩, ⟨2, "Vegan", 1⟩, ⟨3, "user_test", 2⟩]
    ingredients := [⟨1, "Salt", 1⟩, ⟨2, "Potatoes", 1⟩, ⟨3, "ingredient test", 2⟩]
    recipes := [sampleRecipe]
    nextUserId := 3 }

/-! Helper lemmas: membership characterizations of the list operations. -/

theorem mem_list_tags_plain (db : DB) (u : Nat) (t : Tag) :
    t ∈ list_tags db u false ↔ t ∈ db.tags ∧ t.user = u := by
  simp [list_tags, List.mem_filter]

theorem mem_list_ingredients_plain (db : DB) (u : Nat) (i : Ingredient) :
    i ∈ list_ingredients db u false ↔ i ∈ db.ingredients ∧ i.user = u := by
  simp [list_ingredients, List.mem_filter]

theorem mem_list_recipes_plain (db : DB) (u : Nat) (r : Recipe) :
    r ∈ list_recipes db u none none ↔ r ∈ db.recipes ∧ r.user = u := by
  simp [list_recipes, List.mem_filter]

theorem user_of_mem_list_tags (db : DB) (u : Nat) (b : Bool) (t : Tag)
    (h : t ∈ list_tags db u b) : t.user = u := by
  cases b <;> simp [list_tags, List.mem_filter] at h <;> tauto

theorem user_of_mem_list_ingredients (db : DB) (u : Nat) (b : Bool) (i : Ingredient)
    (h : i ∈ list_ingredients db u b) : i.user = u := by
  cases b <;> simp [list_ingredients, List.mem_filter] at h <;> tauto

theorem user_of_mem_list_recipes (db : DB) (u : Nat) (tf fi : Option (List Nat))
    (r : Recipe) (h : r ∈ list_recipes db u tf fi) : r.user = u := by
  cases tf <;> cases fi <;> simp [list_recipes, List.mem_filter] at h <;> tauto

theorem user_of_retrieve_recipe (db : DB) (u : Nat) (rid : Nat) (r : Recipe)
    (h : retrieve_recipe db u rid = some r) : r.user = u := by
  have hm := List.mem_of_find?_eq_some h
  simp [List.mem_filter] at hm
  exact hm.2

/-- C1: for distinct users u1 and u2, the list and retrieve operations for
Tag, Ingredient and Recipe invoked as u1 never return a row owned by u2, and
each list invoked without filters contains exactly the rows owned by u1. -/
theorem claim1_user_isolation (db : DB) (u1 u2 : Nat) (hne : u1 ≠ u2) :
    (∀ b t, t ∈ list_tags db u1 b → t.user ≠ u2) ∧
    (∀ b i, i ∈ list_ingredients db u1 b → i.user ≠ u2) ∧
    (∀ tf fi r, r ∈ list_recipes db u1 tf fi → r.user ≠ u2) ∧
    (∀ rid r, retrieve_recipe db u1 rid = some r → r.user ≠ u2) ∧
    (∀ t, t ∈ list_tags db u1 false ↔ t ∈ db.tags ∧ t.user = u1) ∧
    (∀ i, i ∈ list_ingredients db u1 false ↔ i ∈ db.ingredients ∧ i.user = u1) ∧
    (∀ r, r ∈ list_recipes db u1 none none ↔ r ∈ db.recipes ∧ r.user = u1) := by
  refine ⟨?_, ?_, ?_, ?_, ?_, ?_, ?_⟩
  · intro b t h
    rw [user_of_mem_list_tags db u1 b t h]
    exact hne
  · intro b i h
    rw [user_of_mem_list_ingredients db u1 b i h]
    exact hne
  · intro tf fi r h
    rw [user_of_mem_list_recipes db u1 tf fi r h]
    exact hne
  · intro rid r h
    rw [user_of_retrieve_recipe db u1 rid r h]
    exact hne
  · exact mem_list_tags_plain db u1
  · exact mem_list_ingredients_plain db u1
  · exact mem_list_recipes_plain db u1

/-- Witness for C1 at the sample store with users 1 and 2. -/
theorem claim1_user_isolation_witness :
    (∀ b t, t ∈ list_tags sampleDB 1 b → t.user ≠ 2) ∧
    (∀ b i, i ∈ list_ingredients sampleDB 1 b → i.user ≠ 2) ∧
    (∀ tf fi r, r ∈ list_recipes sampleDB 1 tf fi → r.user ≠ 2) ∧
    (∀ rid r, retrieve_recipe sampleDB 1 rid = some r → r.user ≠ 2) ∧
    (∀ t, t ∈ list_tags sampleDB 1 false ↔ t ∈ sampleDB.tags ∧ t.user = 1) ∧
    (∀ i, i ∈ list_ingredients sampleDB 1 false ↔ i ∈ sampleDB.ingredients ∧ i.user = 1) ∧
    (∀ r, r ∈ list_recipes sampleDB 1 none none ↔ r ∈ sampleDB.recipes ∧ r.user = 1) :=
  claim1_user_isolation sampleDB 1 2 (by decide)

/-- C8: the Tag and Ingredient list operations return exactly the user's
rows (a permutation of the owner-filtered table) arranged in descending
order of name. -/
theorem claim8_lists_ordered_name_desc (db : DB) (u : Nat) :
    (list_tags db u false).Sorted (fun a b => b.name ≤ a.name) ∧
    List.Perm (list_tags db u false) (db.tags.filter (fun t => t.user == u)) ∧
    (list_ingredients db u false).Sorted (fun a b => b.name ≤ a.name) ∧
    List.Perm (list_ingredients db u false)
      (db.ingredients.filter (fun i => i.user == u)) := by
  refine ⟨?_, ?_, ?_, ?_⟩
  · exact List.sorted_insertionSort tagNameGe _
  · exact List.perm_insertionSort tagNameGe _
  · exact List.sorted_insertionSort ingNameGe _
  · exact List.perm_insertionSort ingNameGe _

theorem mem_list_tags_assigned (db : DB) (u : Nat) (t : Tag) :
    t ∈ list_tags db u true ↔
      t ∈ db.tags ∧ t.user = u ∧ ∃ r ∈ db.recipes, r.user = u ∧ t.id ∈ r.tags := by
  simp [list_tags, List.mem_filter, List.any_eq_true, and_assoc]
  tauto

theorem mem_list_ingredients_assigned (db : DB) (u : Nat) (i : Ingredient) :
    i ∈ list_ingredients db u true ↔
      i ∈ db.ingredients ∧ i.user = u ∧
        ∃ r ∈ db.recipes, r.user = u ∧ i.id ∈ r.ingredients := by
  simp [list_ingredients, List.mem_filter, List.any_eq_true, and_assoc]
  tauto

/-- C6: with assigned_only set, the Tag and Ingredient lists return exactly
those of the user's rows that are referenced by at least one of that user's
recipes. -/
theorem claim6_assigned_only_exact (db : DB) (u : Nat) :
    (∀ t, t ∈ list_tags db u true ↔
      t ∈ db.tags ∧ t.user = u ∧ ∃ r ∈ db.recipes, r.user = u ∧ t.id ∈ r.tags) ∧
    (∀ i, i ∈ list_ingredients db u true ↔
      i ∈ db.ingredients ∧ i.user = u ∧
        ∃ r ∈ db.recipes, r.user = u ∧ i.id ∈ r.ingredients) :=
  ⟨mem_list_tags_assigned db u, mem_list_ingredients_assigned db u⟩

theorem splitAtSign_append (l d : List Char) (hl : '@' ∉ l) :
    splitAtSign (l ++ '@' :: d) = some (l, d) := by
  induction l with
  | nil => simp [splitAtSign]
  | cons c cs ih =>
    have h1 : ¬(c = '@') := fun h => hl (by simp [h])
    have h2 : '@' ∉ cs := fun h => hl (List.mem_cons_of_mem _ h)
    simp [splitAtSign, h1, ih h2]

/-- C3: create_user on an email of the form local at-sign domain (the local
part free of at-signs) stores the user with the local part unchanged, joined
by an at-sign to the lowercased domain part. -/
theorem claim3_email_domain_lowercased (l d : List Char) (pw : String) (db : DB)
    (hl : '@' ∉ l) (_hd : '@' ∉ d) :
    ∃ u db',
      create_user db (some (String.mk (l ++ '@' :: d))) pw = .ok (u, db') ∧
      u.email = String.mk (l ++ '@' :: d.map Char.toLower) ∧
      u ∈ db'.users := by
  have hne : String.mk (l ++ '@' :: d) ≠ "" := by
    intro h
    have hdata : l ++ '@' :: d = ([] : List Char) := by
      simpa using congrArg String.data h
    simp at hdata
  simp only [create_user]
  rw [if_neg hne]
  refine ⟨_, _, rfl, ?_, ?_⟩
  · show normalize_email (String.mk (l ++ '@' :: d)) = _
    unfold normalize_email
    have : (String.mk (l ++ '@' :: d)).data = l ++ '@' :: d := rfl
    rw [this, splitAtSign_append l d hl]
  · simp

/-- Witness for C3 at the email the normalization test uses. -/
theorem claim3_email_domain_lowercased_witness :
    ∃ u db',
      create_user emptyDB
        (some (String.mk (['t', 'e', 's', 'T'] ++ '@' ::
          ['r', 'e', 'c', 'i', 'p', 'e', 'A', 'P', 'I', '.', 'c', 'o', 'm'])))
        "somethingrandom" = .ok (u, db') ∧
      u.email = String.mk (['t', 'e', 's', 'T'] ++ '@' ::
        (['r', 'e', 'c', 'i', 'p', 'e', 'A', 'P', 'I', '.', 'c', 'o', 'm'].map Char.toLower)) ∧
      u ∈ db'.users :=
  claim3_email_domain_lowercased _ _ "somethingrandom" emptyDB (by decide) (by decide)

/-- C4 counterexample: create_user with a missing email raises ValueError,
not ValidationError — the repository's own test
(test_user_no_email_raises_error) asserts ValueError. -/
theorem claim4_counterexample :
    create_user emptyDB none "somethingrandom" ≠ Except.error PyErr.validationError ∧
    create_user emptyDB none "somethingrandom" = Except.error PyErr.valueError := by
  constructor
  · intro h
    simp [create_user] at h
  · rfl

/-- C4 amended: create_user with an empty or missing email fails with a
ValueError (the error class the in-tree test asserts), and no user is
created — no user/store pair is ever produced. -/
theorem claim4_empty_email_value_error (db : DB) (pw : String) :
    create_user db none pw = .error .valueError ∧
    create_user db (some "") pw = .error .valueError ∧
    (∀ u db', create_user db none pw ≠ .ok (u, db')) ∧
    (∀ u db', create_user db (some "") pw ≠ .ok (u, db')) := by
  refine ⟨rfl, ?_, ?_, ?_⟩
  · simp [create_user]
  · intro u db' h
    simp [create_user] at h
  · intro u db' h
    simp [create_user] at h

/-- C5: a signup whose password is shorter than 5 characters fails with 400
and leaves the store unchanged (so no user with that email exists afterwards
when none existed before); with a password of length at least 5, a non-empty
fresh email yields a created user whose stored hash verifies the password. -/
theorem claim5_password_min_length (db : DB) (email pw : String) :
    (pw.length < 5 →
      (signup db email pw).1 = 400 ∧ (signup db email pw).2.1 = db ∧
      ((∀ u ∈ db.users, u.email ≠ email) →
        ∀ u ∈ (signup db email pw).2.1.users, u.email ≠ email)) ∧
    (5 ≤ pw.length → email ≠ "" → (∀ u ∈ db.users, u.email ≠ email) →
      ∃ u db', signup db email pw = (201, db', [("email", u.email)]) ∧
        u ∈ db'.users ∧ check_password pw u = true) := by
  constructor
  · intro hshort
    rw [signup, if_pos hshort]
    exact ⟨rfl, rfl, fun h => h⟩
  · intro hlong hne huniq
    have hnotshort : ¬pw.length < 5 := Nat.not_lt.mpr hlong
    have hany : (db.users.any (fun u => u.email == email)) = false := by
      simp only [List.any_eq_false]
      intro u hu
      simpa using huniq u hu
    rw [signup, if_neg hnotshort, if_neg hne, if_neg (by simp [hany])]
    simp only [create_user]
    rw [if_neg hne]
    refine ⟨_, _, rfl, by simp, ?_⟩
    simp [check_password]

/-- Witness for C5: the short password of test_password_too_short is
rejected with the store untouched, and the valid password of
test_create_user_valid yields a user whose hash verifies it. -/
theorem claim5_password_min_length_witness :
    ((signup emptyDB "test@recipeapi.com" "sr").1 = 400 ∧
      (signup emptyDB "test@recipeapi.com" "sr").2.1 = emptyDB) ∧
    (∃ u db', signup emptyDB "test@recipeapi.com" "somethingrandom" =
        (201, db', [("email", u.email)]) ∧
      u ∈ db'.users ∧ check_password "somethingrandom" u = true) := by
  constructor
  · have h := (claim5_password_min_length emptyDB "test@recipeapi.com" "sr").1 (by decide)
    exact ⟨h.1, h.2.1⟩
  · exact (claim5_password_min_length emptyDB "test@recipeapi.com" "somethingrandom").2
      (by decide) (by decide) (by simp [emptyDB])

/-- C10 counterexample: the user-create endpoint's 400 response to the short
password of test_password_too_short carries a password-keyed field-level
error message (spec section 7), so there is a request whose user-create
response contains a password field. -/
theorem claim10_counterexample :
    ("password", "Ensure this field has at least 5 characters.")
      ∈ (signup emptyDB "test@recipeapi.com" "sr").2.2 := by
  decide

/-- C10 amended: the password value is write-only at the API surface — no
successful (201) response of the user-create endpoint and no response of the
profile retrieve endpoint carries a password field, and the profile retrieve
body consists of exactly the email field; only a 400 validation response may
carry a password-keyed field-error message. -/
theorem claim10_password_write_only_success (db : DB) (email pw : String) (u : User) :
    ((signup db email pw).1 = 201 →
      ∀ v, ("password", v) ∉ (signup db email pw).2.2) ∧
    (∀ v, ("password", v) ∉ (me_retrieve u).2) ∧
    (me_retrieve u).2 = [("email", u.email)] := by
  refine ⟨?_, ?_, rfl⟩
  · intro h201 v
    by_cases h1 : pw.length < 5
    · rw [signup, if_pos h1] at h201
      simp at h201
    rw [signup, if_neg h1] at h201 ⊢
    by_cases h2 : email = ""
    · rw [if_pos h2] at h201
      simp at h201
    rw [if_neg h2] at h201 ⊢
    by_cases h3 : (db.users.any (fun x => x.email == email)) = true
    · rw [if_pos h3] at h201
      simp at h201
    rw [if_neg h3] at h201 ⊢
    simp only [create_user] at h201 ⊢
    rw [if_neg h2] at h201 ⊢
    simp [user_to_representation]
  · intro v
    simp [me_retrieve, user_to_representation]

/-- Witness for the amended C10: the valid signup of test_create_user_valid
answers 201 and its body carries no password field, and the profile retrieve
of the sample user is exactly the email field. -/
theorem claim10_password_write_only_success_witness :
    (∀ v, ("password", v) ∉
      (signup emptyDB "test@recipeapi.com" "somethingrandom").2.2) ∧
    (∀ v, ("password", v) ∉ (me_retrieve sampleUser).2) ∧
    (me_retrieve sampleUser).2 = [("email", sampleUser.email)] := by
  have h := claim10_password_write_only_success emptyDB "test@recipeapi.com"
    "somethingrandom" sampleUser
  exact ⟨h.1 (by decide), h.2.1, h.2.2⟩

theorem authenticate_some_elim (db : DB) (e p : String) (u : User)
    (h : authenticate db e p = some u) :
    u ∈ db.users ∧ u.email = e ∧ check_password p u = true := by
  unfold authenticate at h
  split at h
  next v hfind =>
    split at h
    next hchk =>
      cases h
      exact ⟨List.mem_of_find?_eq_some hfind, by simpa using List.find?_some hfind, hchk⟩
    next hchk => cases h
  next hfind => cases h

theorem authenticate_some_intro (db : DB) (e p : String)
    (huniq : db.users.Pairwise (fun a b => a.email ≠ b.email))
    (hex : ∃ u ∈ db.users, u.email = e ∧ check_password p u = true) :
    ∃ u, authenticate db e p = some u := by
  rcases hex with ⟨u, hu, heq, hchk⟩
  rcases hfind : db.users.find? (fun x => x.email == e) with _ | v
  · exfalso
    rw [List.find?_eq_none] at hfind
    have hne := hfind u hu
    simp at hne
    exact hne heq
  · have hv_mem := List.mem_of_find?_eq_some hfind
    have hv_eq : v.email = e := by simpa using List.find?_some hfind
    have huv : u = v := by
      by_contra hne
      exact List.Pairwise.forall (fun _ _ h => Ne.symm h) huniq hu hv_mem hne
        (heq.trans hv_eq.symm)
    refine ⟨v, ?_⟩
    unfold authenticate
    rw [hfind]
    simp [huv ▸ hchk]

/-- C7: with unique stored emails and both fields supplied non-blank, the
token endpoint answers 200 with a token exactly when a stored user carries
that email and the stored hash verifies the password; on any mismatch or
missing field it answers 400 with no token in the body. -/
theorem claim7_token_iff_credentials (db : DB) (e p : String)
    (huniq : db.users.Pairwise (fun a b => a.email ≠ b.email))
    (he : e ≠ "") (hp : p ≠ "") :
    (((token_endpoint db (some e) (some p)).1 = 200 ∧
        ∃ t, ("token", t) ∈ (token_endpoint db (some e) (some p)).2) ↔
      ∃ u ∈ db.users, u.email = e ∧ check_password p u = true) ∧
    ((¬∃ u ∈ db.users, u.email = e ∧ check_password p u = true) →
      token_endpoint db (some e) (some p) = (400, [])) ∧
    (∀ op, token_endpoint db none op = (400, [])) ∧
    (∀ oe, token_endpoint db oe none = (400, [])) := by
  have hcond : ¬(e = "" || p = "") = true := by simp [he, hp]
  have hmain :
      ((token_endpoint db (some e) (some p)).1 = 200 ∧
        ∃ t, ("token", t) ∈ (token_endpoint db (some e) (some p)).2) ↔
      ∃ u, authenticate db e p = some u := by
    simp only [token_endpoint]
    rw [if_neg hcond]
    rcases hauth : authenticate db e p with _ | u <;> simp
  constructor
  · rw [hmain]
    constructor
    · rintro ⟨u, hu⟩
      rcases authenticate_some_elim db e p u hu with ⟨h1, h2, h3⟩
      exact ⟨u, h1, h2, h3⟩
    · exact authenticate_some_intro db e p huniq
  refine ⟨?_, ?_, ?_⟩
  · intro hno
    simp only [token_endpoint]
    rw [if_neg hcond]
    rcases hauth : authenticate db e p with _ | u
    · rfl
    · exfalso
      rcases authenticate_some_elim db e p u hauth with ⟨h1, h2, h3⟩
      exact hno ⟨u, h1, h2, h3⟩
  · intro op
    cases op <;> rfl
  · intro oe
    cases oe <;> rfl

/-- Witness for C7 at the sample store and the credentials the token tests
use. -/
theorem claim7_token_iff_credentials_witness :
    (((token_endpoint sampleDB (some "test@recipeapi.com")
          (some "somethingrandom")).1 = 200 ∧
        ∃ t, ("token", t) ∈ (token_endpoint sampleDB (some "test@recipeapi.com")
          (some "somethingrandom")).2) ↔
      ∃ u ∈ sampleDB.users, u.email = "test@recipeapi.com" ∧
        check_password "somethingrandom" u = true) ∧
    ((¬∃ u ∈ sampleDB.users, u.email = "test@recipeapi.com" ∧
        check_password "somethingrandom" u = true) →
      token_endpoint sampleDB (some "test@recipeapi.com")
        (some "somethingrandom") = (400, [])) ∧
    (∀ op, token_endpoint sampleDB none op = (400, [])) ∧
    (∀ oe, token_endpoint sampleDB oe none = (400, [])) :=
  claim7_token_iff_credentials sampleDB "test@recipeapi.com" "somethingrandom"
    (by simp [sampleDB, sampleUser, otherUser]) (by decide) (by decide)

/-- C2: a full update whose payload omits the relation sets leaves them
empty afterwards while scalar payload fields take the payload values; a
partial update leaves an unmentioned relation set unchanged, replaces a
mentioned one with exactly the provided ids, and every scalar present in
the payload takes the payload value. -/
theorem claim2_put_clears_patch_preserves (r : Recipe) (p q : RecipePayload)
    (tt : String) (tm : Nat) (pr : Int)
    (hT : p.title = some tt) (hM : p.time_minutes = some tm) (hP : p.price = some pr)
    (ht : p.tags = none) (hi : p.ingredients = none) :
    (∃ r', put_update r p = .ok r' ∧ r'.tags = [] ∧ r'.ingredients = [] ∧
      r'.title = tt ∧ r'.time_minutes = tm ∧ r'.price = pr) ∧
    (q.tags = none → (patch_update r q).tags = r.tags) ∧
    (q.ingredients = none → (patch_update r q).ingredients = r.ingredients) ∧
    (∀ ts, q.tags = some ts → (patch_update r q).tags = ts) ∧
    (∀ xs, q.ingredients = some xs → (patch_update r q).ingredients = xs) ∧
    (∀ s, q.title = some s → (patch_update r q).title = s) ∧
    (∀ n, q.time_minutes = some n → (patch_update r q).time_minutes = n) ∧
    (∀ c, q.price = some c → (patch_update r q).price = c) := by
  refine ⟨?_, ?_, ?_, ?_, ?_, ?_, ?_, ?_⟩
  · simp [put_update, hT, hM, hP, ht, hi]
  · intro h
    simp [patch_update, h]
  · intro h
    simp [patch_update, h]
  · intro ts h
    simp [patch_update, h]
  · intro xs h
    simp [patch_update, h]
  · intro s h
    simp [patch_update, h]
  · intro n h
    simp [patch_update, h]
  · intro c h
    simp [patch_update, h]

/-- Witness for C2: the payloads of test_update_full_recipe and
test_update_partial_recipe applied to the sample recipe, which carries
tag 1 and ingredient 1. -/
theorem claim2_put_clears_patch_preserves_witness :
    (∃ r', put_update sampleRecipe
        ⟨some "Spaghetti Carbonara", some 25, some 3, none, none, none⟩ = .ok r' ∧
      r'.tags = [] ∧ r'.ingredients = [] ∧
      r'.title = "Spaghetti Carbonara" ∧ r'.time_minutes = 25 ∧ r'.price = 3) ∧
    ((⟨some "Chicken Tikka", none, none, none, some [2], none⟩ : RecipePayload).tags = none →
      (patch_update sampleRecipe ⟨some "Chicken Tikka", none, none, none, some [2], none⟩).tags
        = sampleRecipe.tags) ∧
    ((⟨some "Chicken Tikka", none, none, none, some [2], none⟩ : RecipePayload).ingredients = none →
      (patch_update sampleRecipe ⟨some "Chicken Tikka", none, none, none, some [2], none⟩).ingredients
        = sampleRecipe.ingredients) ∧
    (∀ ts, (⟨some "Chicken Tikka", none, none, none, some [2], none⟩ : RecipePayload).tags = some ts →
      (patch_update sampleRecipe ⟨some "Chicken Tikka", none, none, none, some [2], none⟩).tags = ts) ∧
    (∀ xs, (⟨some "Chicken Tikka", none, none, none, some [2], none⟩ : RecipePayload).ingredients = some xs →
      (patch_update sampleRecipe ⟨some "Chicken Tikka", none, none, none, some [2], none⟩).ingredients = xs) ∧
    (∀ s, (⟨some "Chicken Tikka", none, none, none, some [2], none⟩ : RecipePayload).title = some s →
      (patch_update sampleRecipe ⟨some "Chicken Tikka", none, none, none, some [2], none⟩).title = s) ∧
    (∀ n, (⟨some "Chicken Tikka", none, none, none, some [2], none⟩ : RecipePayload).time_minutes = some n →
      (patch_update sampleRecipe ⟨some "Chicken Tikka", none, none, none, some [2], none⟩).time_minutes = n) ∧
    (∀ c, (⟨some "Chicken Tikka", none, none, none, some [2], none⟩ : RecipePayload).price = some c →
      (patch_update sampleRecipe ⟨some "Chicken Tikka", none, none, none, some [2], none⟩).price = c) :=
  claim2_put_clears_patch_preserves sampleRecipe
    ⟨some "Spaghetti Carbonara", some 25, some 3, none, none, none⟩
    ⟨some "Chicken Tikka", none, none, none, some [2], none⟩
    "Spaghetti Carbonara" 25 3 rfl rfl rfl rfl rfl

theorem find?_filter_map_preserving (l : List Recipe) (u rid : Nat)
    (f : Recipe → Recipe)
    (hid : ∀ x, (f x).id = x.id) (hus : ∀ x, (f x).user = x.user) :
    ((l.map f).filter (fun x => x.user == u)).find? (fun x => x.id == rid)
      = ((l.filter (fun x => x.user == u)).find? (fun x => x.id == rid)).map f := by
  induction l with
  | nil => rfl
  | cons a l ih =>
    by_cases hu : (a.user == u) = true
    · by_cases hr : (a.id == rid) = true
      · simp [List.filter_cons, List.find?_cons, hus, hid, hu, hr]
      · simp [List.filter_cons, List.find?_cons, hus, hid, hu, hr, ih]
    · simp [List.filter_cons, hus, hu, ih]

/-- C9: on a recipe owned by the requesting user, an upload whose payload
does not decode as an image answers 400 with the store — the recipe's image
field included — untouched; a decodable payload answers 200, records the
image location on the recipe row and returns that location. -/
theorem claim9_upload_image (db : DB) (u rid : Nat) (bs : List Nat) (r : Recipe)
    (hr : retrieve_recipe db u rid = some r) :
    (decodable_image bs = false →
      upload_image db u rid bs = (400, db, [])) ∧
    (decodable_image bs = true →
      (upload_image db u rid bs).1 = 200 ∧
      ("image", image_path rid) ∈ (upload_image db u rid bs).2.2 ∧
      ∃ r', retrieve_recipe (upload_image db u rid bs).2.1 u rid = some r' ∧
        r'.image = some (image_path rid)) := by
  have hfind : (db.recipes.filter (fun x => x.user == u)).find?
      (fun x => x.id == rid) = some r := hr
  have h1 := List.find?_some hfind
  have hid : r.id = rid := by simpa using h1
  have hm := List.mem_of_find?_eq_some hfind
  have hus : r.user = u := by
    simp [List.mem_filter] at hm
    exact hm.2
  constructor
  · intro hnot
    simp only [upload_image]
    rw [hfind]
    simp [hnot]
  · intro hyes
    simp only [upload_image]
    rw [hfind]
    simp only [Option.isSome_some, if_pos hyes]
    refine ⟨by trivial, by simp, ?_⟩
    refine ⟨{ r with image := some (image_path rid) }, ?_, rfl⟩
    have hmap := find?_filter_map_preserving db.recipes u rid
      (fun x => if (x.id == rid && x.user == u) = true then
        { x with image := some (image_path rid) } else x)
      (fun x => by by_cases h : (x.id == rid && x.user == u) = true <;> simp [h])
      (fun x => by by_cases h : (x.id == rid && x.user == u) = true <;> simp [h])
    unfold retrieve_recipe
    rw [show ({ db with
        recipes := db.recipes.map (fun x =>
          if (x.id == rid && x.user == u) = true then
            { x with image := some (image_path rid) } else x) } : DB).recipes
      = db.recipes.map (fun x =>
          if (x.id == rid && x.user == u) = true then
            { x with image := some (image_path rid) } else x) from rfl]
    rw [hmap, hfind]
    simp [hid, hus]

/-- Witness for C9: the sample recipe of the upload tests, with a JPEG
payload on the success side and the vacuous failure side at those bytes. -/
theorem claim9_upload_image_witness :
    (decodable_image [255, 216, 255, 224] = false →
      upload_image sampleDB 1 1 [255, 216, 255, 224] = (400, sampleDB, [])) ∧
    (decodable_image [255, 216, 255, 224] = true →
      (upload_image sampleDB 1 1 [255, 216, 255, 224]).1 = 200 ∧
      ("image", image_path 1) ∈ (upload_image sampleDB 1 1 [255, 216, 255, 224]).2.2 ∧
      ∃ r', retrieve_recipe (upload_image sampleDB 1 1 [255, 216, 255, 224]).2.1 1 1
          = some r' ∧
        r'.image = some (image_path 1)) :=
  claim9_upload_image sampleDB 1 1 [255, 216, 255, 224] sampleRecipe (by rfl)

end RecipeApi
